import Mathlib

/-!
Verification of `Shared_Funcs/pemfc_transport_funcs.py`.

The module holds two flux kernels for a PEM fuel-cell transport model:

* `fickian_adf TDY1 TDY2 gas p tog` — planar (1-D cartesian)
  advection–diffusion mass flux between two adjacent gas-phase nodes,
  using a Cantera-style property provider `gas`;
* `radial_fdiff rho_k1 rho_k2 p node ver flag` — radial finite-difference
  diffusion rate between two adjacent shells, with two variants.

Reals are modelled by `ℚ` (the Python code computes with floats; all the
claims under study are exact algebraic identities, so rational arithmetic is
the faithful idealisation).  Species vectors are `Fin n → ℚ`.

The Cantera `Solution` object is modelled as a pure map from a TDY state to a
property snapshot together with a mutable current state; the kernel threads
the provider state explicitly and additionally records the list of states it
assigns (the Python `gas.TDY = ...` statements), so that the side-effect
claims can be stated.  Reading a property (`gas.viscosity`, …) evaluates the
property map at the current state, matching Cantera's semantics where every
property is a function of the currently set state.

`radial_fdiff` in Python leaves the local `drho_dt` unassigned when
`ver ∉ {1, 2}` and then raises `UnboundLocalError` at `return drho_dt`;
an out-of-range `node` raises `IndexError` at the array subscripts.  Both
failure modes are modelled by returning `none`.
-/

/-- A TDY state: temperature [K], bulk mass density [kg/m^3], and the
species mass-fraction vector [-], exactly the triple assigned to
`gas.TDY` in the Python code. -/
structure TDYState (n : ℕ) where
  T : ℚ
  D : ℚ
  Y : Fin n → ℚ
  deriving DecidableEq

/-- The property snapshot a Cantera solution object reports for one state:
per-species mixture diffusion coefficients, bulk density, dynamic viscosity,
pressure, and mass fractions — precisely the attributes `fickian_adf`
reads. -/
structure GasProps (n : ℕ) where
  mix_diff_coeffs_mass : Fin n → ℚ
  density_mass : ℚ
  viscosity : ℚ
  P : ℚ
  Y : Fin n → ℚ

/-- The property provider (Cantera `Solution`): a pure property map
`props` indexed by the TDY state, plus the currently-set state. -/
structure Gas (n : ℕ) where
  props : TDYState n → GasProps n
  state : TDYState n

/-- One `gas.TDY = s` assignment: replaces the provider's current state and
appends `s` to the log of state assignments. -/
def Gas.setTDY (g : Gas n × List (TDYState n)) (s : TDYState n) :
    Gas n × List (TDYState n) :=
  (⟨g.1.props, s⟩, g.2 ++ [s])

/-- The parameter dictionary of `fickian_adf`:
keys `'wt1'`, `'wt2'`, `'K_g'`, `'1/dy'`, `'eps/tau2'`. -/
structure PlanarParams where
  wt1 : ℚ
  wt2 : ℚ
  K_g : ℚ
  inv_dy : ℚ
  eps_tau2 : ℚ

/-- `fickian_adf(TDY1, TDY2, gas, p, tog)` from
`Shared_Funcs/pemfc_transport_funcs.py` (lines 12–59), translated
statement-for-statement.  Returns the species mass-flux vector together with
the provider as it stands after the call and the log of `gas.TDY`
assignments the call performed. -/
def fickian_adf (TDY1 TDY2 : TDYState n) (gas : Gas n) (p : PlanarParams)
    (tog : ℚ) : (Fin n → ℚ) × Gas n × List (TDYState n) :=
  -- set state 1 properties:
  let g1 := Gas.setTDY (gas, []) TDY1
  let D_k1 := (g1.1.props g1.1.state).mix_diff_coeffs_mass
  let rho1 := (g1.1.props g1.1.state).density_mass
  let mu1 := (g1.1.props g1.1.state).viscosity
  let P1 := (g1.1.props g1.1.state).P
  let Y1 := (g1.1.props g1.1.state).Y
  let rho_k1 := fun i => rho1 * Y1 i
  -- set state 2 properties:
  let g2 := Gas.setTDY g1 TDY2
  let D_k2 := (g2.1.props g2.1.state).mix_diff_coeffs_mass
  let rho2 := (g2.1.props g2.1.state).density_mass
  let mu2 := (g2.1.props g2.1.state).viscosity
  let P2 := (g2.1.props g2.1.state).P
  let Y2 := (g2.1.props g2.1.state).Y
  let rho_k2 := fun i => rho2 * Y2 i
  -- calculate average boundary properties:
  let D_k := fun i => p.wt1 * D_k1 i + p.wt2 * D_k2 i
  let rho := p.wt1 * rho1 + p.wt2 * rho2
  let mu := p.wt1 * mu1 + p.wt2 * mu2
  let rho_k := fun i => p.wt1 * rho_k1 i + p.wt2 * rho_k2 i
  -- convective and diffusive driving terms:
  let J_conv := fun i => -rho_k i * p.K_g * (P2 - P1) * p.inv_dy / mu
  let J_diff := fun i => -p.eps_tau2 * D_k i * rho * (Y2 i - Y1 i) * p.inv_dy
  -- net mass flux of each species:
  let mass_flux := fun i => tog * (J_conv i + J_diff i)
  (mass_flux, g2.1, g2.2)

/-- The flux formula as the spec words it (§4.1, steps 3–6): weighted
boundary averages `D_k`, `rho`, `mu`, `rho_k` of the per-node provider
properties (with `rho_k_i = rho_i * Y_i`), advective term
`J_conv = -rho_k*K_g*(P2-P1)*(1/dy)/mu`, diffusive term
`J_diff = -(eps/tau2)*D_k*rho*(Y2-Y1)*(1/dy)`, output
`enable * (J_conv + J_diff)`.  Stated against the two per-node property
snapshots; used to compare `fickian_adf` with the spec. -/
def planar_flux_spec (pr1 pr2 : GasProps n) (p : PlanarParams) (tog : ℚ) :
    Fin n → ℚ := fun i =>
  let D_k := p.wt1 * pr1.mix_diff_coeffs_mass i + p.wt2 * pr2.mix_diff_coeffs_mass i
  let rho := p.wt1 * pr1.density_mass + p.wt2 * pr2.density_mass
  let mu := p.wt1 * pr1.viscosity + p.wt2 * pr2.viscosity
  let rho_k := p.wt1 * (pr1.density_mass * pr1.Y i) + p.wt2 * (pr2.density_mass * pr2.Y i)
  let J_conv := -rho_k * p.K_g * (pr2.P - pr1.P) * p.inv_dy / mu
  let J_diff := -p.eps_tau2 * D_k * rho * (pr2.Y i - pr1.Y i) * p.inv_dy
  tog * (J_conv + J_diff)

/-- The parameter dictionary of `radial_fdiff`: scalar keys `'D_eff_naf'`,
`'p_eff_SAnaf'`, `'eps/tau2_n2'` and per-node-indexed arrays `'r_jph'`,
`'1/dr'`, `'1/r_j'`, `'1/t_shl'`. -/
structure RadialParams where
  D_eff_naf : ℚ
  p_eff_SAnaf : ℚ
  eps_tau2_n2 : ℚ
  r_jph : List ℚ
  inv_dr : List ℚ
  inv_r_j : List ℚ
  inv_t_shl : List ℚ

/-- `radial_fdiff(rho_k1, rho_k2, p, node, ver, flag)` from
`Shared_Funcs/pemfc_transport_funcs.py` (lines 71–98).  `none` models the
Python failures: `UnboundLocalError` at `return drho_dt` when
`ver ∉ {1, 2}` (no branch assigns `drho_dt`), and `IndexError` when `node`
is past the end of an accessed array.  The argument `flag` is accepted and,
as in the source, never used. -/
def radial_fdiff (rho_k1 rho_k2 : Fin n → ℚ) (p : RadialParams) (node : ℕ)
    (ver : ℤ) (flag : ℚ) : Option (Fin n → ℚ) :=
  if ver = 1 then
    match p.r_jph[node]?, p.inv_dr[node]? with
    | some rjph, some idr =>
        some (fun i => p.D_eff_naf * p.p_eff_SAnaf * p.eps_tau2_n2
          * (rjph ^ 2 * (rho_k1 i - rho_k2 i) * idr))
    | _, _ => none
  else if ver = 2 then
    match p.r_jph[node]?, p.inv_dr[node]?,
          p.inv_r_j[node]?, p.inv_t_shl[node]? with
    | some rjph, some idr, some irj, some itsh =>
        some (fun i => p.D_eff_naf * p.p_eff_SAnaf * p.eps_tau2_n2
          * (rjph ^ 2 * (rho_k1 i - rho_k2 i) * idr) * irj ^ 2 * itsh)
    | _, _, _, _ => none
  else none

/-- C1: for every pair of states and parameters, the planar kernel returns,
per species, `enable * (J_conv + J_diff)` with the advective and diffusive
terms built from the wt1/wt2-weighted averages of the per-node properties
read from the provider, exactly as `planar_flux_spec` words the spec's
formula. -/
theorem fickian_adf_matches_spec_formula (TDY1 TDY2 : TDYState n)
    (gas : Gas n) (p : PlanarParams) (tog : ℚ) :
    (fickian_adf TDY1 TDY2 gas p tog).1 =
      planar_flux_spec (gas.props TDY1) (gas.props TDY2) p tog := rfl

/-- C3: with `tog = 0` the planar kernel returns the exact zero vector
regardless of every other input; with `tog = 1` it returns exactly the
un-gated sum `J_conv + J_diff` of the advective and diffusive terms. -/
theorem fickian_adf_tog_gating (TDY1 TDY2 : TDYState n) (gas : Gas n)
    (p : PlanarParams) :
    (fickian_adf TDY1 TDY2 gas p 0).1 = (fun _ => 0) ∧
    (fickian_adf TDY1 TDY2 gas p 1).1 = fun i =>
      -(p.wt1 * ((gas.props TDY1).density_mass * (gas.props TDY1).Y i)
          + p.wt2 * ((gas.props TDY2).density_mass * (gas.props TDY2).Y i))
        * p.K_g * ((gas.props TDY2).P - (gas.props TDY1).P) * p.inv_dy
        / (p.wt1 * (gas.props TDY1).viscosity + p.wt2 * (gas.props TDY2).viscosity)
      + -p.eps_tau2
        * (p.wt1 * (gas.props TDY1).mix_diff_coeffs_mass i
            + p.wt2 * (gas.props TDY2).mix_diff_coeffs_mass i)
        * (p.wt1 * (gas.props TDY1).density_mass + p.wt2 * (gas.props TDY2).density_mass)
        * ((gas.props TDY2).Y i - (gas.props TDY1).Y i) * p.inv_dy := by
  constructor
  · funext i
    simp [fickian_adf, Gas.setTDY]
  · funext i
    simp only [fickian_adf, Gas.setTDY, one_mul]

/-- C5: swapping the two states and the two weights negates every component
of the planar kernel's output, all other inputs fixed. -/
theorem fickian_adf_antisymmetric (TDY1 TDY2 : TDYState n) (gas : Gas n)
    (p : PlanarParams) (tog : ℚ) :
    (fickian_adf TDY2 TDY1 gas ⟨p.wt2, p.wt1, p.K_g, p.inv_dy, p.eps_tau2⟩ tog).1 =
      fun i => -((fickian_adf TDY1 TDY2 gas p tog).1 i) := by
  funext i
  simp only [fickian_adf, Gas.setTDY]
  ring

/-- C7: after the planar kernel returns, the provider's current state is
`TDY2`; the kernel assigned the provider's state exactly twice, first to
`TDY1` and then to `TDY2`, and left the provider's property map (and every
other input, all immutable here) unchanged. -/
theorem fickian_adf_provider_state_effect (TDY1 TDY2 : TDYState n)
    (gas : Gas n) (p : PlanarParams) (tog : ℚ) :
    (fickian_adf TDY1 TDY2 gas p tog).2.1.state = TDY2 ∧
    (fickian_adf TDY1 TDY2 gas p tog).2.2 = [TDY1, TDY2] ∧
    (fickian_adf TDY1 TDY2 gas p tog).2.1.props = gas.props :=
  ⟨rfl, rfl, rfl⟩

/-- Node 1 state of the spec's concrete scenario: T = 350 K, density 1.0,
single species with Y = [1.0]. -/
def scenario_TDY1 : TDYState 1 := ⟨350, 1, fun _ => 1⟩

/-- Node 2 state of the spec's concrete scenario.  The scenario stipulates
that the provider reports P = 101325 at node 1 but P = 101300 at node 2;
a deterministic state-to-properties provider can only do that if the two
states differ, so the density coordinate of this handle is set to 2
(every provider-reported value, including the reported density 1.0, still
matches the scenario's stipulations at both states). -/
def scenario_TDY2 : TDYState 1 := ⟨350, 2, fun _ => 1⟩

/-- The scenario's provider: D_k = 2e-5 = 1/50000, density 1.0,
mu = 2e-5 = 1/50000, Y = [1.0] at both states; P = 101325 at the first
state and P = 101300 at the second. -/
def scenario_gas : Gas 1 :=
  ⟨fun s => if s.D = 1 then ⟨fun _ => 1/50000, 1, 1/50000, 101325, fun _ => 1⟩
    else ⟨fun _ => 1/50000, 1, 1/50000, 101300, fun _ => 1⟩,
   scenario_TDY1⟩

/-- The scenario's parameters: wt1 = wt2 = 0.5, K_g = 1e-12,
1/dy = 100, eps/tau2 = 0.5. -/
def scenario_params : PlanarParams := ⟨1/2, 1/2, 1/1000000000000, 100, 1/2⟩

/-- C8 counterexample: in the spec's concrete scenario the planar kernel
does not return -0.125; the code yields
-1*(1e-12)*(101300-101325)*100/(2e-5) = +1/8000 = +1.25e-4 kg/m^2-s
(the spec's -0.125 is off by a factor of 1000 and has the wrong sign for
P2 - P1 = -25). -/
theorem scenario_flux_ne_neg_eighth :
    (fickian_adf scenario_TDY1 scenario_TDY2 scenario_gas scenario_params 1).1 0 ≠
      -(1/8 : ℚ) := by
  norm_num [fickian_adf, Gas.setTDY, scenario_TDY1, scenario_TDY2,
    scenario_gas, scenario_params]

/-- C8 amended: in the spec's concrete scenario the diffusive term vanishes
(Y2 - Y1 = 0) and the planar kernel's output is the advective term
J_conv = +1/8000 = +1.25e-4 kg/m^2-s. -/
theorem scenario_flux_value :
    ((scenario_gas.props scenario_TDY2).Y 0 - (scenario_gas.props scenario_TDY1).Y 0 = 0) ∧
    (fickian_adf scenario_TDY1 scenario_TDY2 scenario_gas scenario_params 1).1 =
      fun _ => (1/8000 : ℚ) := by
  constructor
  · norm_num [scenario_gas, scenario_TDY1, scenario_TDY2]
  · funext i
    norm_num [fickian_adf, Gas.setTDY, scenario_TDY1, scenario_TDY2,
      scenario_gas, scenario_params]

/-- C2: a variant selector other than 1 and 2 makes the radial kernel fail
(in Python, `UnboundLocalError` at `return drho_dt`, modelled as `none`)
rather than silently return an uncomputed or stale result. -/
theorem radial_fdiff_unrecognized_ver_fails (rho_k1 rho_k2 : Fin n → ℚ)
    (p : RadialParams) (node : ℕ) (ver : ℤ) (flag : ℚ)
    (h1 : ver ≠ 1) (h2 : ver ≠ 2) :
    radial_fdiff rho_k1 rho_k2 p node ver flag = none := by
  simp [radial_fdiff, h1, h2]

/-- C2 witness: calling with variant 3 fails (returns `none`), not zero. -/
theorem radial_fdiff_unrecognized_ver_fails_witness :
    radial_fdiff (fun _ : Fin 1 => 1) (fun _ => 0) ⟨1, 1, 1, [1], [1], [1], [1]⟩
      0 3 0 = none :=
  radial_fdiff_unrecognized_ver_fails _ _ _ _ _ _ (by decide) (by decide)

/-- C10: the radial kernel's output is completely independent of the unused
`flag` argument: any two calls differing only in `flag` return the same
result (for every variant, in particular variants 1 and 2). -/
theorem radial_fdiff_ignores_flag (rho_k1 rho_k2 : Fin n → ℚ)
    (p : RadialParams) (node : ℕ) (ver : ℤ) (flag1 flag2 : ℚ) :
    radial_fdiff rho_k1 rho_k2 p node ver flag1 =
      radial_fdiff rho_k1 rho_k2 p node ver flag2 := rfl

/-- C4: with identical other inputs, the variant-2 output of the radial
kernel equals the variant-1 output multiplied componentwise by
`(1/r_j[node])^2 * (1/t_shl[node])`. -/
theorem radial_fdiff_ver2_eq_ver1_scaled (rho_k1 rho_k2 : Fin n → ℚ)
    (p : RadialParams) (node : ℕ) (flag : ℚ)
    (h3 : node < p.inv_r_j.length) (h4 : node < p.inv_t_shl.length) :
    radial_fdiff rho_k1 rho_k2 p node 2 flag =
      Option.map
        (fun v i => v i * (p.inv_r_j.get ⟨node, h3⟩) ^ 2 * p.inv_t_shl.get ⟨node, h4⟩)
        (radial_fdiff rho_k1 rho_k2 p node 1 flag) := by
  have e3 : p.inv_r_j[node]? = some (p.inv_r_j.get ⟨node, h3⟩) := by
    rw [List.getElem?_eq_getElem h3, List.get_eq_getElem]
  have e4 : p.inv_t_shl[node]? = some (p.inv_t_shl.get ⟨node, h4⟩) := by
    rw [List.getElem?_eq_getElem h4, List.get_eq_getElem]
  cases hr : p.r_jph[node]? with
  | none => simp [radial_fdiff, hr]
  | some rjph =>
    cases hd : p.inv_dr[node]? with
    | none => simp [radial_fdiff, hr, hd]
    | some idr => simp [radial_fdiff, hr, hd, e3, e4]

/-- C4 witness: the variant relation at a concrete one-species input. -/
theorem radial_fdiff_ver2_eq_ver1_scaled_witness :
    radial_fdiff (fun _ : Fin 1 => 3) (fun _ => 1) ⟨1, 1, 1, [2], [5], [7], [11]⟩
        0 2 0 =
      Option.map
        (fun v i => v i * ((RadialParams.mk 1 1 1 [2] [5] [7] [11]).inv_r_j.get
            ⟨0, by decide⟩) ^ 2 *
          (RadialParams.mk 1 1 1 [2] [5] [7] [11]).inv_t_shl.get ⟨0, by decide⟩)
        (radial_fdiff (fun _ : Fin 1 => 3) (fun _ => 1) ⟨1, 1, 1, [2], [5], [7], [11]⟩
          0 1 0) :=
  radial_fdiff_ver2_eq_ver1_scaled _ _ _ _ _ (by decide) (by decide)

/-- C6: swapping the two partial-density vectors negates every component of
the radial kernel's output, for variant 1 and for variant 2. -/
theorem radial_fdiff_swap_negates (rho_k1 rho_k2 : Fin n → ℚ)
    (p : RadialParams) (node : ℕ) (ver : ℤ) (flag : ℚ)
    (hver : ver = 1 ∨ ver = 2) :
    radial_fdiff rho_k2 rho_k1 p node ver flag =
      Option.map (fun v i => -(v i)) (radial_fdiff rho_k1 rho_k2 p node ver flag) := by
  rcases hver with h | h
  · subst h
    cases hr : p.r_jph[node]? with
    | none => simp [radial_fdiff, hr]
    | some rjph =>
      cases hd : p.inv_dr[node]? with
      | none => simp [radial_fdiff, hr, hd]
      | some idr =>
        simp [radial_fdiff, hr, hd]
        funext i
        ring
  · subst h
    cases hr : p.r_jph[node]? with
    | none => simp [radial_fdiff, hr]
    | some rjph =>
      cases hd : p.inv_dr[node]? with
      | none => simp [radial_fdiff, hr, hd]
      | some idr =>
        cases hj : p.inv_r_j[node]? with
        | none => simp [radial_fdiff, hr, hd, hj]
        | some irj =>
          cases ht : p.inv_t_shl[node]? with
          | none => simp [radial_fdiff, hr, hd, hj, ht]
          | some itsh =>
            simp [radial_fdiff, hr, hd, hj, ht]
            funext i
            ring

/-- C6 witness: the swap negation at a concrete one-species input,
variant 1. -/
theorem radial_fdiff_swap_negates_witness :
    radial_fdiff (fun _ : Fin 1 => 1) (fun _ => 4) ⟨1, 1, 1, [2], [5], [7], [11]⟩
        0 1 0 =
      Option.map (fun v i => -(v i))
        (radial_fdiff (fun _ : Fin 1 => 4) (fun _ => 1)
          ⟨1, 1, 1, [2], [5], [7], [11]⟩ 0 1 0) :=
  radial_fdiff_swap_negates _ _ _ _ _ _ (Or.inl rfl)

/-- C9: when the node index is out of range of an array the call dereferences
(`r_jph` or `1/dr`; for variant 2 also `1/r_j` or `1/t_shl`), the radial
kernel fails (Python `IndexError`, modelled as `none`) instead of returning
a value computed from some other element. -/
theorem radial_fdiff_node_oob_fails (rho_k1 rho_k2 : Fin n → ℚ)
    (p : RadialParams) (node : ℕ) (ver : ℤ) (flag : ℚ)
    (h : p.r_jph.length ≤ node ∨ p.inv_dr.length ≤ node ∨
         (ver = 2 ∧ (p.inv_r_j.length ≤ node ∨ p.inv_t_shl.length ≤ node))) :
    radial_fdiff rho_k1 rho_k2 p node ver flag = none := by
  by_cases hv1 : ver = 1
  · subst hv1
    rcases h with h | h | ⟨hv, h2⟩
    · simp [radial_fdiff, List.getElem?_eq_none h]
    · cases hr : p.r_jph[node]? <;>
        simp [radial_fdiff, hr, List.getElem?_eq_none h]
    · exact absurd hv (by decide)
  · by_cases hv2 : ver = 2
    · subst hv2
      rcases h with h | h | ⟨hv, h2⟩
      · simp [radial_fdiff, List.getElem?_eq_none h]
      · cases hr : p.r_jph[node]? <;>
          simp [radial_fdiff, hr, List.getElem?_eq_none h]
      · rcases h2 with h2 | h2
        · cases hr : p.r_jph[node]? <;> cases hd : p.inv_dr[node]? <;>
            simp [radial_fdiff, hr, hd, List.getElem?_eq_none h2]
        · cases hr : p.r_jph[node]? <;> cases hd : p.inv_dr[node]? <;>
            cases hj : p.inv_r_j[node]? <;>
            simp [radial_fdiff, hr, hd, hj, List.getElem?_eq_none h2]
    · simp [radial_fdiff, hv1, hv2]

/-- C9 witness: indexing node 0 of empty parameter arrays fails. -/
theorem radial_fdiff_node_oob_fails_witness :
    radial_fdiff (fun _ : Fin 1 => 1) (fun _ => 0) ⟨1, 1, 1, [], [], [], []⟩
      0 1 0 = none :=
  radial_fdiff_node_oob_fails _ _ _ _ _ _ (Or.inl (by decide))
